import Mathlib

/-!
Shallow embedding of the bosma_uz backend cores: the Auth core
(`AuthService` in `src/auth/auth.service.ts`) and the cart-to-order core
(`CartService` in `src/cart/cart.service.ts`, `OrderService` in
`src/order/order.service.ts`).  Every service method is embedded as a pure
function from an explicit database state to a pair of the post-state and an
`Except`-style result, mirroring the control flow of the TypeScript source
line by line.  Nondeterministic inputs of the environment (the current time,
the randomly generated OTP code, whether the mail transport or the store's
transaction fails) are passed as explicit parameters.
-/

namespace Bosma

/-- The NestJS exception taxonomy used by the services. -/
inductive Err where
  | badRequest (msg : String)
  | notFound (msg : String)
  | unauthorized (msg : String)
  | conflict (msg : String)
  | internal (msg : String)
deriving DecidableEq, Repr

/-- Prisma `Role` enum. -/
inductive Role where
  | USER
  | ADMIN
  | SUPER_ADMIN
deriving DecidableEq, Repr

/-- A bcrypt digest of a plaintext of type `α`.  bcrypt is modelled as an
injective one-way function: `bcryptCompare` succeeds exactly when the
plaintexts coincide (no collisions, salts elided). -/
structure Hashed (α : Type) where
  plain : α
deriving DecidableEq, Repr

/-- `bcrypt.hash(x, 10)`. -/
def bcryptHash {α : Type} (x : α) : Hashed α := ⟨x⟩

/-- `bcrypt.compare(x, h)`. -/
def bcryptCompare {α : Type} [BEq α] (x : α) (h : Hashed α) : Bool :=
  x == h.plain

/-- JWT refresh-token payload `{ sub, email }`; `iat` stands for the signing
time the JWT library embeds (two tokens signed at different instants are
distinct strings).  The 7-day TTL is not claim-relevant and is elided. -/
structure RefreshTok where
  sub : Nat
  email : String
  iat : Nat
deriving DecidableEq, Repr

/-- JWT access-token payload `{ sub, email, role }` with signing time. -/
structure AccessTok where
  sub : Nat
  email : String
  role : Role
  iat : Nat
deriving DecidableEq, Repr

/-- A persisted user row (Prisma `User`).  `createdAt`/`updatedAt`
timestamps are not claim-relevant and are elided. -/
structure User where
  id : Nat
  email : String
  password : Hashed String
  fullName : String
  phone : String
  role : Role
  region : String
  address : String
  isActive : Bool
  otpCode : Option (Hashed String)
  otpExpires : Option Nat
  hashedRefreshToken : Option (Hashed RefreshTok)
deriving DecidableEq, Repr

/-- The user projection the auth endpoints return (never the password or
the OTP / refresh-token hashes). -/
structure PublicUser where
  id : Nat
  fullName : String
  email : String
  phone : String
  role : Role
  region : String
  address : String
  isActive : Bool
deriving DecidableEq, Repr

def sanitize (u : User) : PublicUser :=
  { id := u.id, fullName := u.fullName, email := u.email, phone := u.phone
    role := u.role, region := u.region, address := u.address
    isActive := u.isActive }

/-- The credential store state: the user table plus the id sequence. -/
structure UserDB where
  users : List User
  nextUserId : Nat
deriving DecidableEq, Repr

/-- Modelled from the spec: `UserService.findByEmail` (user.service.ts is
not under src/); the Credential Store looks a user up by its unique email. -/
def findByEmail (db : UserDB) (email : String) : Option User :=
  db.users.find? (fun u => u.email == email)

/-- Modelled from the spec: `UserService.findUserWithRefreshToken`
(user.service.ts is not under src/); returns the full user row, including
`hashedRefreshToken`, for the given id. -/
def findUserById (db : UserDB) (id : Nat) : Option User :=
  db.users.find? (fun u => u.id == id)

/-- Modelled from the spec: `UserService.update` (user.service.ts is not
under src/); writes the given field changes to every row with the given id.
Call sites pass exactly the fields the TypeScript call sites set; where the
update includes a plaintext password, the call site applies `bcryptHash`
because the Credential Store's own write path re-hashes passwords. -/
def updateUser (db : UserDB) (id : Nat) (f : User → User) : UserDB :=
  { db with users := db.users.map (fun u => if u.id == id then f u else u) }

/-- Registration input (`CreateUserDto`); `role` is optional and normally
absent — a present value models a caller attempting to set a role. -/
structure CreateUserDto where
  email : String
  password : String
  fullName : String
  phone : String
  region : String
  address : String
  role : Option Role
deriving DecidableEq, Repr

/-- Modelled from the spec: `UserService.create` (user.service.ts is not
under src/); persists a new user with the given fields, hashing the
password on its own write path, and fails on the email uniqueness
constraint. -/
def userCreate (db : UserDB) (dto : CreateUserDto) (role : Role)
    (isActive : Bool) : UserDB × Except Err User :=
  if db.users.any (fun u => u.email == dto.email) then
    (db, .error (.conflict "Email already exists"))
  else
    let u : User :=
      { id := db.nextUserId, email := dto.email
        password := bcryptHash dto.password, fullName := dto.fullName
        phone := dto.phone, role := role, region := dto.region
        address := dto.address, isActive := isActive
        otpCode := none, otpExpires := none, hashedRefreshToken := none }
    ({ users := db.users ++ [u], nextUserId := db.nextUserId + 1 }, .ok u)

/-- `AuthService.register` (src/auth/auth.service.ts, via
src/unnamed/part_001 lines 32–54): rejects any DTO that carries a role,
otherwise persists with role forced to `USER` and `isActive` forced to
`false`. -/
def register (db : UserDB) (dto : CreateUserDto) :
    UserDB × Except Err (String × PublicUser) :=
  match dto.role with
  | some _ =>
      (db, .error (.badRequest "Role cannot be specified during registration"))
  | none =>
      match userCreate db dto Role.USER false with
      | (db', .ok u) =>
          (db', .ok
            ("Account created. Please request an OTP to verify your account.",
             sanitize u))
      | (db', .error e) => (db', .error e)

/-- The field change `login` and `refreshTokens` hand to
`userService.update`: replace the stored refresh-token hash with the hash
of the freshly signed token. -/
def setRefreshHash (t : RefreshTok) (v : User) : User :=
  { v with hashedRefreshToken := some (bcryptHash t) }

/-- The field change `sendOtp` and `forgotPassword` hand to
`userService.update`: store the OTP hash and the 5-minute expiry. -/
def setOtpFields (otpCode : String) (now : Nat) (v : User) : User :=
  { v with otpCode := some (bcryptHash otpCode), otpExpires := some (now + 5 * 60) }

/-- The field change `verifyOtp` hands to `userService.update`: activate
the account and null the OTP fields. -/
def activateUser (v : User) : User :=
  { v with isActive := true, otpCode := none, otpExpires := none }

/-- The field change `resetPassword` hands to `userService.update` (the
store's write path hashes the password). -/
def resetPasswordFields (newPassword : String) (v : User) : User :=
  { v with password := bcryptHash newPassword, isActive := true, otpCode := none, otpExpires := none }

/-- What `login` returns on success. -/
structure LoginOk where
  user : PublicUser
  accessToken : AccessTok
  refreshToken : RefreshTok
deriving DecidableEq, Repr

/-- `AuthService.login` (src/unnamed/part_001 lines 56–111).  `now` is the
JWT signing time. -/
def login (db : UserDB) (email password : String) (now : Nat) :
    UserDB × Except Err LoginOk :=
  match findByEmail db email with
  | none => (db, .error (.unauthorized "Invalid email or password"))
  | some user =>
      -- The VERY FIRST check must be if the user is active
      if !user.isActive then
        (db, .error (.unauthorized
          "Account is inactive. Please verify your account via OTP first."))
      else if !bcryptCompare password user.password then
        (db, .error (.unauthorized "Invalid email or password"))
      else
        let accessToken : AccessTok :=
          { sub := user.id, email := user.email, role := user.role, iat := now }
        let refreshToken : RefreshTok :=
          { sub := user.id, email := user.email, iat := now }
        -- Hash and store the refresh token
        let db' := updateUser db user.id (setRefreshHash refreshToken)
        (db', .ok { user := sanitize user, accessToken := accessToken
                    refreshToken := refreshToken })

/-- The access+refresh pair `refreshTokens` returns on success. -/
structure TokenPair where
  accessToken : AccessTok
  refreshToken : RefreshTok
deriving DecidableEq, Repr

/-- `AuthService.refreshTokens` (src/unnamed/part_001 lines 113–161). -/
def refreshTokens (db : UserDB) (userId : Nat) (refreshToken : RefreshTok)
    (now : Nat) : UserDB × Except Err TokenPair :=
  match findUserById db userId with
  | none => (db, .error (.unauthorized "Session expired or invalid token"))
  | some user =>
      -- Check if user has a hashedRefreshToken
      match user.hashedRefreshToken with
      | none => (db, .error (.unauthorized "Session expired or invalid token"))
      | some stored =>
          if !bcryptCompare refreshToken stored then
            (db, .error (.unauthorized "Session expired or invalid token"))
          -- This same isActive check must be applied in refreshTokens
          else if !user.isActive then
            (db, .error (.unauthorized
              "Account is inactive. Please verify your account via OTP first."))
          else
            let newRefreshToken : RefreshTok :=
              { sub := user.id, email := user.email, iat := now }
            let newAccessToken : AccessTok :=
              { sub := user.id, email := user.email, role := user.role
                iat := now }
            -- Update the stored refresh token
            let db' := updateUser db user.id (setRefreshHash newRefreshToken)
            (db', .ok { accessToken := newAccessToken
                        refreshToken := newRefreshToken })

/-- `AuthService.sendOtp` (src/unnamed/part_001 lines 170–202).  `otpCode`
is the randomly generated 6-digit code, `now` the current time in seconds,
`mailOk` whether the mail transport succeeds (a transport failure is caught
and rethrown as an Internal error, after the OTP was already persisted). -/
def sendOtp (db : UserDB) (email otpCode : String) (now : Nat)
    (mailOk : Bool) : UserDB × Except Err String :=
  match findByEmail db email with
  | none => (db, .error (.notFound "User with this email not found"))
  | some user =>
      let db' := updateUser db user.id (setOtpFields otpCode now)
      if mailOk then
        (db', .ok "OTP sent successfully. Please check your email.")
      else
        (db', .error (.internal "Email service failed to send OTP"))

/-- `AuthService.verifyOtp` (src/unnamed/part_001 lines 205–254). -/
def verifyOtp (db : UserDB) (email otpCode : String) (now : Nat) :
    UserDB × Except Err (String × PublicUser) :=
  match findByEmail db email with
  | none => (db, .error (.notFound "User with this email not found"))
  | some user =>
      -- Check if OTP code exists
      match user.otpCode with
      | none =>
          (db, .error (.badRequest
            "No OTP code found for this user. Please request a new OTP."))
      | some storedOtp =>
          -- Check if OTP has expired
          if user.otpExpires.any (fun e => decide (e < now)) then
            (db, .error (.badRequest "OTP has expired. Please request a new OTP."))
          -- Compare the provided OTP with the hashed version in the DB
          else if !bcryptCompare otpCode storedOtp then
            (db, .error (.badRequest "Invalid OTP code. Please try again."))
          else
            let db' := updateUser db user.id activateUser
            (db', .ok
              ("Account verified successfully. You can now log in.",
               { sanitize user with isActive := true }))

/-- `AuthService.forgotPassword` (src/unnamed/part_001 lines 257–285).
Unlike `sendOtp`, a missing account yields the same generic message, and a
mail-transport failure is not caught here so it propagates as the Internal
error `MailService.sendPasswordResetOtp` throws. -/
def forgotPassword (db : UserDB) (email otpCode : String) (now : Nat)
    (mailOk : Bool) : UserDB × Except Err String :=
  match findByEmail db email with
  | none =>
      -- For security, we don't reveal if the email exists
      (db, .ok "If the email exists, an OTP has been sent to your email.")
  | some user =>
      let db' := updateUser db user.id (setOtpFields otpCode now)
      if mailOk then
        (db', .ok "If the email exists, an OTP has been sent to your email.")
      else
        (db', .error (.internal "Failed to send password reset OTP"))

/-- `AuthService.resetPassword` (src/unnamed/part_001 lines 288–307): no
OTP check is performed (the commented-out block in the source); the new
password is handed to the store, whose write path hashes it. -/
def resetPassword (db : UserDB) (email newPassword : String) :
    UserDB × Except Err String :=
  match findByEmail db email with
  | none => (db, .error (.notFound "User with this email not found"))
  | some user =>
      let db' := updateUser db user.id (resetPasswordFields newPassword)
      (db', .ok "Password reset successfully")

/-! ## Cart-to-order core -/

/-- Prisma `Variant` row (only the claim-relevant fields). -/
structure Variant where
  id : Nat
  price : Int
deriving DecidableEq, Repr

/-- Prisma `CartItem` row.  The design payloads are JSON values; they are
modelled as optional strings, the empty string standing for a falsy JSON
value (JS `||` distinguishes it from a truthy one, `??` does not). -/
structure CartItem where
  id : Nat
  cartId : Nat
  variantId : Nat
  quantity : Int
  frontDesign : Option String
  backDesign : Option String
  frontPreviewUrl : Option String
  backPreviewUrl : Option String
deriving DecidableEq, Repr

/-- Prisma `Cart` row. -/
structure Cart where
  id : Nat
  userId : Nat
deriving DecidableEq, Repr

/-- Optional design payload passed to `addItemToCart`. -/
structure DesignData where
  frontDesign : Option String
  backDesign : Option String
  frontPreviewUrl : Option String
  backPreviewUrl : Option String
deriving DecidableEq, Repr

/-- Prisma `OrderStatus`; only `PENDING` is used by the embedded
operations, the remaining enum values are elided. -/
inductive OrderStatus where
  | PENDING
deriving DecidableEq, Repr

/-- Prisma `PaymentStatus`; only `UNPAID` is used by the embedded
operations. -/
inductive PaymentStatus where
  | UNPAID
deriving DecidableEq, Repr

/-- Prisma `OrderItem` row (nested under its order). -/
structure OrderItem where
  variantId : Nat
  quantity : Int
  price : Int
  frontDesign : Option String
  backDesign : Option String
  frontPreviewUrl : Option String
  backPreviewUrl : Option String
deriving DecidableEq, Repr

/-- Prisma `Order` row with its owned `OrderItem` collection. -/
structure Order where
  id : Nat
  userId : Nat
  status : OrderStatus
  paymentStatus : PaymentStatus
  totalPrice : Int
  customerName : String
  customerPhone : String
  region : String
  address : String
  items : List OrderItem
deriving DecidableEq, Repr

/-- The shop side of the store: carts, cart items, variants, orders, and
the id sequences. -/
structure ShopDB where
  carts : List Cart
  cartItems : List CartItem
  variants : List Variant
  orders : List Order
  nextCartId : Nat
  nextCartItemId : Nat
  nextOrderId : Nat
deriving DecidableEq, Repr

/-- Shipping details (`shippingDetails: any`).  String fields; the empty
string models an absent / falsy field, which is what JS `||` tests. -/
structure ShippingDetails where
  customerName : String
  customerPhone : String
  region : String
  address : String
  deliveryAddress : String
deriving DecidableEq, Repr

/-- JS `s || d` on strings: the empty string is falsy. -/
def jsOrStr (s d : String) : String :=
  if s == "" then d else s

/-- JS `v || undefined` on an optional value whose empty string is falsy
(used by `placeOrderFromCart` for design payloads); contrast with `?? `,
which is the identity on the option. -/
def jsOrUndef (v : Option String) : Option String :=
  match v with
  | none => none
  | some s => if s == "" then none else some s

/-- The `variant` relation of a cart item, resolved at read time by the
Prisma `include`. -/
def variantOf (db : ShopDB) (i : CartItem) : Option Variant :=
  db.variants.find? (fun v => v.id == i.variantId)

/-- The `items` relation of a cart, resolved by the Prisma `include`. -/
def cartItemsOf (db : ShopDB) (cartId : Nat) : List CartItem :=
  db.cartItems.filter (fun i => i.cartId == cartId)

/-- `cart.items.reduce((sum, item) => sum + (item.variant?.price || 0) *
item.quantity, 0)` — for an integer price, `p || 0` coincides with `p`
(`0 || 0` is `0`), so the JS truthiness test on the price disappears. -/
def cartTotal (db : ShopDB) (cartId : Nat) : Int :=
  (cartItemsOf db cartId).foldl
    (fun sum i => sum + ((variantOf db i).map Variant.price).getD 0 * i.quantity) 0

/-- `CartService.addItemToCart` (src/src/cart/cart.service.ts lines
49–87): lazily creates the user's cart, requires the variant to exist, and
merges into an existing `(cartId, variantId)` row rather than duplicating. -/
def addItemToCart (db : ShopDB) (userId variantId : Nat) (quantity : Int)
    (designData : Option DesignData) : ShopDB × Except Err CartItem :=
  -- let cart = findFirst({ where: { userId } }); if (!cart) cart = create(userId)
  let (cart, db1) :=
    match db.carts.find? (fun c => c.userId == userId) with
    | some c => (c, db)
    | none =>
        let c : Cart := { id := db.nextCartId, userId := userId }
        (c, { db with carts := db.carts ++ [c], nextCartId := db.nextCartId + 1 })
  -- Variant bormi?
  match db1.variants.find? (fun v => v.id == variantId) with
  | none => (db1, .error (.notFound "Product variant not found"))
  | some _ =>
      -- dedupe by cartId + variantId only
      match db1.cartItems.find?
          (fun i => i.cartId == cart.id && i.variantId == variantId) with
      | some existingItem =>
          let updated := { existingItem with
                           quantity := existingItem.quantity + quantity }
          let items' := db1.cartItems.map
            (fun i => if i.id == existingItem.id then updated else i)
          ({ db1 with cartItems := items' }, .ok updated)
      | none =>
          let newItem : CartItem :=
            { id := db1.nextCartItemId, cartId := cart.id
              variantId := variantId, quantity := quantity
              frontDesign := designData.bind DesignData.frontDesign
              backDesign := designData.bind DesignData.backDesign
              frontPreviewUrl := designData.bind DesignData.frontPreviewUrl
              backPreviewUrl := designData.bind DesignData.backPreviewUrl }
          ({ db1 with cartItems := db1.cartItems ++ [newItem]
                      nextCartItemId := db1.nextCartItemId + 1 },
           .ok newItem)

/-- `CartService.convertCartToOrder` (src/src/cart/cart.service.ts lines
125–171).  `txFails` says whether the backing store aborts the
`$transaction` partway (e.g. while creating the nested order items); Prisma
then rolls back every write of the transaction, so the state is returned
unchanged. -/
def convertCartToOrder (db : ShopDB) (userId : Nat)
    (shippingDetails : ShippingDetails) (txFails : Bool) :
    ShopDB × Except Err Order :=
  match db.carts.find? (fun c => c.userId == userId) with
  | none => (db, .error (.badRequest "Cart is empty"))
  | some cart =>
      let items := cartItemsOf db cart.id
      if items.isEmpty then
        (db, .error (.badRequest "Cart is empty"))
      else
        let totalPrice := cartTotal db cart.id
        if txFails then
          (db, .error (.internal "Transaction aborted"))
        else
          let order : Order :=
            { id := db.nextOrderId, userId := userId
              status := OrderStatus.PENDING
              paymentStatus := PaymentStatus.UNPAID
              totalPrice := totalPrice
              customerName := shippingDetails.customerName
              customerPhone := shippingDetails.customerPhone
              region := shippingDetails.region
              address := shippingDetails.address
              items := items.map (fun i =>
                { variantId := i.variantId, quantity := i.quantity
                  price := ((variantOf db i).map Variant.price).getD 0
                  -- item.frontDesign ?? undefined — identity on the option
                  frontDesign := i.frontDesign
                  backDesign := i.backDesign
                  frontPreviewUrl := i.frontPreviewUrl
                  backPreviewUrl := i.backPreviewUrl }) }
          let remaining := db.cartItems.filter (fun i => !(i.cartId == cart.id))
          ({ db with
               orders := db.orders ++ [order]
               nextOrderId := db.nextOrderId + 1
               cartItems := remaining },
           .ok order)

/-- `OrderService.placeOrderFromCart` (src/src/order/order.service.ts lines
270–391): additionally validates that every cart item's variant still
exists and that the total is positive; the post-commit confirmation email
is best-effort (failures are caught and swallowed), so it affects neither
the state nor the result and is elided. -/
def placeOrderFromCart (db : ShopDB) (userId : Nat)
    (shippingDetails : ShippingDetails) (txFails : Bool) :
    ShopDB × Except Err Order :=
  match db.carts.find? (fun c => c.userId == userId) with
  | none => (db, .error (.badRequest "Cart is empty"))
  | some cart =>
      let items := cartItemsOf db cart.id
      if items.isEmpty then
        (db, .error (.badRequest "Cart is empty"))
      else
        -- Validate relations
        match items.find? (fun i => (variantOf db i).isNone) with
        | some missing =>
            (db, .error (.badRequest
              s!"Variant with ID {missing.variantId} not found"))
        | none =>
            -- Calculate total price (every variant exists here, so the
            -- `getD 0` default is never taken)
            let totalPrice := cartTotal db cart.id
            if totalPrice ≤ 0 then
              (db, .error (.badRequest "Total price must be greater than zero"))
            else if txFails then
              (db, .error (.internal "Transaction aborted"))
            else
              let order : Order :=
                { id := db.nextOrderId, userId := userId
                  status := OrderStatus.PENDING
                  paymentStatus := PaymentStatus.UNPAID
                  totalPrice := totalPrice
                  customerName := shippingDetails.customerName
                  customerPhone := shippingDetails.customerPhone
                  region := jsOrStr shippingDetails.region "Unknown"
                  address := jsOrStr shippingDetails.address
                    (jsOrStr shippingDetails.deliveryAddress "Unknown")
                  items := items.map (fun i =>
                    { variantId := i.variantId, quantity := i.quantity
                      price := ((variantOf db i).map Variant.price).getD 0
                      -- item.frontDesign || undefined — drops falsy payloads
                      frontDesign := jsOrUndef i.frontDesign
                      backDesign := jsOrUndef i.backDesign
                      frontPreviewUrl := i.frontPreviewUrl
                      backPreviewUrl := i.backPreviewUrl }) }
              let remaining := db.cartItems.filter (fun i => !(i.cartId == cart.id))
              ({ db with
                   orders := db.orders ++ [order]
                   nextOrderId := db.nextOrderId + 1
                   cartItems := remaining },
               .ok order)

/-- The cart-item dedup invariant: no two rows share `(cartId, variantId)`. -/
def CartItemsDedup (db : ShopDB) : Prop :=
  db.cartItems.Pairwise
    (fun a b => ¬(a.cartId = b.cartId ∧ a.variantId = b.variantId))

end Bosma

namespace Bosma

/-! ## Concrete stores used by counterexamples and witnesses -/

/-- A registration input with no role field. -/
def dtoNoRole : CreateUserDto :=
  { email := "ann@example.com", password := "pw", fullName := "Ann"
    phone := "+998901112233", region := "Tashkent", address := "X"
    role := none }

/-- A registration input in which the caller attempts to set a role. -/
def dtoWithRole : CreateUserDto := { dtoNoRole with role := some Role.ADMIN }

/-- An empty credential store. -/
def udbEmpty : UserDB := { users := [], nextUserId := 1 }

/-- An inactive user holding a pending OTP (hash of "123456", expiry 100)
and a stored refresh-token hash. -/
def annInactive : User :=
  { id := 1, email := "ann@example.com", password := bcryptHash "pw"
    fullName := "Ann", phone := "+998901112233", role := Role.USER
    region := "Tashkent", address := "X", isActive := false
    otpCode := some (bcryptHash "123456"), otpExpires := some 100
    hashedRefreshToken := some (bcryptHash { sub := 1, email := "ann@example.com", iat := 5 }) }

/-- Store holding only the inactive `annInactive`. -/
def udbInactive : UserDB := { users := [annInactive], nextUserId := 2 }

/-- Store holding the activated version of the same user. -/
def udbActive : UserDB :=
  { users := [{ annInactive with isActive := true }], nextUserId := 2 }

/-- A cart of user 1 holding 2 units of variant 7, priced 5. -/
def sdbBase : ShopDB :=
  { carts := [{ id := 1, userId := 1 }]
    cartItems := [{ id := 1, cartId := 1, variantId := 7, quantity := 2
                    frontDesign := none, backDesign := none
                    frontPreviewUrl := none, backPreviewUrl := none }]
    variants := [{ id := 7, price := 5 }]
    orders := [], nextCartId := 2, nextCartItemId := 2, nextOrderId := 1 }

/-- Same cart, but variant 7 is priced 0. -/
def sdbZeroPrice : ShopDB := { sdbBase with variants := [{ id := 7, price := 0 }] }

/-- Same cart, but variant 7 no longer exists. -/
def sdbNoVariant : ShopDB := { sdbBase with variants := [] }

/-- Well-formed shipping details. -/
def shipOk : ShippingDetails :=
  { customerName := "Ann", customerPhone := "+998901112233"
    region := "Tashkent", address := "X", deliveryAddress := "" }

/-- Shipping details whose region is the empty (falsy) string. -/
def shipEmptyRegion : ShippingDetails := { shipOk with region := "" }

/-! ## Helper lemmas -/

/-- `find?` commutes with a `map` whose function preserves the predicate. -/
theorem find?_map_of_pred_eq {α : Type} (g : α → α) (p : α → Bool)
    (hp : ∀ a, p (g a) = p a) :
    ∀ l : List α, (l.map g).find? p = (l.find? p).map g := by
  intro l
  induction l with
  | nil => rfl
  | cons a t ih =>
      cases h : p a with
      | true =>
          rw [List.map_cons, List.find?_cons_of_pos _ (by rw [hp a]; exact h),
            List.find?_cons_of_pos _ h]
          rfl
      | false =>
          rw [List.map_cons,
            List.find?_cons_of_neg _ (by simp [hp a, h]),
            List.find?_cons_of_neg _ (by simp [h]), ih]

/-- Filtering by `p` after keeping only the elements violating `p` yields
the empty list. -/
theorem filter_not_filter_eq_nil {α : Type} (p : α → Bool) (l : List α) :
    (l.filter (fun a => !(p a))).filter p = [] := by
  induction l with
  | nil => rfl
  | cons a t ih =>
      cases h : p a with
      | true => simp [List.filter, h, ih]
      | false => simp [List.filter, h, ih]

end Bosma

namespace Bosma

/-- C1: for every registration input that carries a role field, `register`
rejects with BadRequest and persists nothing (rather than forcing the role
to USER and persisting); a user is only persisted for role-free inputs, and
then always with role `USER` and `isActive = false`. -/
theorem C1_register_role_rejected (db : UserDB) (dto : CreateUserDto) :
    (∀ r, dto.role = some r →
      register db dto =
        (db, .error (.badRequest "Role cannot be specified during registration"))) ∧
    (dto.role = none → ∀ msg pu, (register db dto).2 = .ok (msg, pu) →
      pu.role = Role.USER ∧ pu.isActive = false ∧
      ∃ u, (register db dto).1.users = db.users ++ [u] ∧
        u.role = Role.USER ∧ u.isActive = false) := by
  constructor
  · intro r hr
    simp [register, hr]
  · intro hr msg pu h
    simp only [register, hr] at h ⊢
    by_cases hdup : (db.users.any (fun u => u.email == dto.email)) = true
    · rw [userCreate, if_pos hdup] at h
      simp at h
    · rw [userCreate, if_neg hdup] at h ⊢
      simp only [Except.ok.injEq, Prod.mk.injEq] at h
      obtain ⟨-, hpu⟩ := h
      subst hpu
      exact ⟨rfl, rfl, _, rfl, rfl, rfl⟩

/-- C1 counterexample: on a registration input whose role field is set (to
ADMIN), `register` persists no user at all and fails with BadRequest, so
the persisted role is not USER as claimed. -/
theorem C1_counterexample :
    dtoWithRole.role = some Role.ADMIN ∧
    (register udbEmpty dtoWithRole).2 =
      Except.error (Err.badRequest "Role cannot be specified during registration") ∧
    (register udbEmpty dtoWithRole).1.users = [] :=
  ⟨rfl, rfl, rfl⟩

/-- C1 witness: the theorem applied to the concrete inputs `dtoWithRole`
and `dtoNoRole` over the empty store. -/
theorem C1_witness :
    register udbEmpty dtoWithRole =
      (udbEmpty, .error (.badRequest "Role cannot be specified during registration")) ∧
    (∃ u, (register udbEmpty dtoNoRole).1.users = udbEmpty.users ++ [u] ∧
      u.role = Role.USER ∧ u.isActive = false) :=
  ⟨(C1_register_role_rejected udbEmpty dtoWithRole).1 Role.ADMIN rfl,
   ((C1_register_role_rejected udbEmpty dtoNoRole).2 rfl
      "Account created. Please request an OTP to verify your account."
      { id := 1, fullName := "Ann", email := "ann@example.com"
        phone := "+998901112233", role := Role.USER, region := "Tashkent"
        address := "X", isActive := false } rfl).2.2⟩

end Bosma

namespace Bosma

/-- C4: a user whose `isActive` is false can never obtain a token pair:
`login` fails with the inactive-account Unauthorized error before the
password is even compared, and `refreshTokens` fails with an Unauthorized
error whatever refresh token is presented. -/
theorem C4_inactive_never_authenticates (db : UserDB) (u : User)
    (email password : String) (uid now : Nat) (tok : RefreshTok)
    (hfind : findByEmail db email = some u)
    (hid : findUserById db uid = some u)
    (hinactive : u.isActive = false) :
    (login db email password now).2 =
      .error (.unauthorized
        "Account is inactive. Please verify your account via OTP first.") ∧
    ∃ m, (refreshTokens db uid tok now).2 = .error (.unauthorized m) := by
  constructor
  · simp [login, hfind, hinactive]
  · unfold refreshTokens
    rw [hid]
    cases hh : u.hashedRefreshToken with
    | none => exact ⟨"Session expired or invalid token", by simp [hh]⟩
    | some stored =>
        cases hcmp : bcryptCompare tok stored with
        | false =>
            exact ⟨"Session expired or invalid token", by simp [hh, hcmp]⟩
        | true =>
            exact ⟨"Account is inactive. Please verify your account via OTP first.",
              by simp [hh, hcmp, hinactive]⟩

/-- C4 witness: the theorem applied to the store holding only the inactive
`annInactive`, with the correct password and the exactly matching stored
refresh token. -/
theorem C4_witness :
    (login udbInactive "ann@example.com" "pw" 10).2 =
      Except.error (Err.unauthorized
        "Account is inactive. Please verify your account via OTP first.") ∧
    ∃ m, (refreshTokens udbInactive 1
        { sub := 1, email := "ann@example.com", iat := 5 } 10).2 =
      Except.error (Err.unauthorized m) :=
  C4_inactive_never_authenticates udbInactive annInactive
    "ann@example.com" "pw" 1 10 { sub := 1, email := "ann@example.com", iat := 5 }
    rfl rfl rfl

end Bosma

namespace Bosma

/-- C5: refresh-token rotation.  After a successful `refreshTokens` call
(whose newly issued token is distinct from the presented one because the
signing times differ), presenting the previous refresh token again fails
with Unauthorized; moreover a stored hash accepts at most one token value,
so at every moment at most one refresh token per user is accepted. -/
theorem C5_refresh_rotation (db : UserDB) (uid : Nat) (tok : RefreshTok)
    (now later : Nat) (pair : TokenPair)
    (hsucc : (refreshTokens db uid tok now).2 = .ok pair)
    (hfresh : tok.iat ≠ now) :
    (refreshTokens (refreshTokens db uid tok now).1 uid tok later).2 =
      .error (.unauthorized "Session expired or invalid token") ∧
    ∀ (h : Hashed RefreshTok) (t1 t2 : RefreshTok),
      bcryptCompare t1 h = true → bcryptCompare t2 h = true → t1 = t2 := by
  refine ⟨?_, ?_⟩
  · unfold refreshTokens at hsucc
    cases hu : findUserById db uid with
    | none => rw [hu] at hsucc; simp at hsucc
    | some u =>
        rw [hu] at hsucc
        cases hh : u.hashedRefreshToken with
        | none => simp [hh] at hsucc
        | some stored =>
            cases hcmp : bcryptCompare tok stored with
            | false => simp [hh, hcmp] at hsucc
            | true =>
                cases hact : u.isActive with
                | false => simp [hh, hcmp, hact] at hsucc
                | true =>
                    have hpost : (refreshTokens db uid tok now).1 =
                        updateUser db u.id (setRefreshHash { sub := u.id, email := u.email, iat := now }) := by
                      unfold refreshTokens
                      rw [hu]
                      simp [hh, hcmp, hact]
                    have hmap : findUserById (updateUser db u.id (setRefreshHash { sub := u.id, email := u.email, iat := now })) uid =
                        some (setRefreshHash { sub := u.id, email := u.email, iat := now } u) := by
                      unfold findUserById updateUser
                      rw [find?_map_of_pred_eq _ _
                        (by intro a; by_cases ha : (a.id == u.id) = true <;> simp [ha, setRefreshHash])]
                      unfold findUserById at hu
                      rw [hu]
                      simp
                    have hne : (tok == RefreshTok.mk u.id u.email now) = false := by
                      apply beq_eq_false_iff_ne.mpr
                      intro hEq
                      exact hfresh (congrArg RefreshTok.iat hEq)
                    rw [hpost]
                    unfold refreshTokens
                    rw [hmap]
                    simp [setRefreshHash, bcryptCompare, bcryptHash, hne]
  · intro h t1 t2 h1 h2
    unfold bcryptCompare at h1 h2
    have e1 : t1 = h.plain := by simpa using h1
    have e2 : t2 = h.plain := by simpa using h2
    rw [e1, e2]

/-- C5 witness: over the active one-user store, refreshing with the stored
token at time 10 succeeds, and replaying the same token afterwards is
rejected. -/
theorem C5_witness :
    (refreshTokens (refreshTokens udbActive 1
        { sub := 1, email := "ann@example.com", iat := 5 } 10).1 1
        { sub := 1, email := "ann@example.com", iat := 5 } 11).2 =
      Except.error (Err.unauthorized "Session expired or invalid token") :=
  (C5_refresh_rotation udbActive 1
    { sub := 1, email := "ann@example.com", iat := 5 } 10 11
    { accessToken := { sub := 1, email := "ann@example.com"
                       role := Role.USER, iat := 10 }
      refreshToken := { sub := 1, email := "ann@example.com", iat := 10 } }
    rfl (by decide)).1

end Bosma

namespace Bosma

/-- Membership in an updated user table: every row either was left alone
(its id differs) or is the image under the update of a row with the id. -/
theorem mem_updateUser {db : UserDB} {id : Nat} {f : User → User} {v : User}
    (hv : v ∈ (updateUser db id f).users) :
    (∃ w, w ∈ db.users ∧ v = w ∧ (w.id == id) = false) ∨
    (∃ w, w ∈ db.users ∧ v = f w ∧ (w.id == id) = true) := by
  unfold updateUser at hv
  obtain ⟨w, hw, hmap⟩ := List.mem_map.mp hv
  by_cases h : (w.id == id) = true
  · right
    exact ⟨w, hw, by rw [← hmap, if_pos h], h⟩
  · left
    exact ⟨w, hw, by rw [← hmap, if_neg h], by simpa using h⟩

/-- C6: `verifyOtp` fails with NotFound for an absent user and with
BadRequest when no OTP is pending, when the stored expiry has passed
(regardless of whether the submitted code matches — the expiry check
decides before any hash comparison), or when the hash comparison fails;
on success it sets `isActive` and nulls the OTP fields. -/
theorem C6_verify_otp_checks (db : UserDB) (email code : String) (now : Nat) :
    (findByEmail db email = none →
      verifyOtp db email code now =
        (db, .error (.notFound "User with this email not found"))) ∧
    (∀ u, findByEmail db email = some u → u.otpCode = none →
      verifyOtp db email code now =
        (db, .error (.badRequest
          "No OTP code found for this user. Please request a new OTP."))) ∧
    (∀ u h e, findByEmail db email = some u → u.otpCode = some h →
      u.otpExpires = some e → e < now →
      verifyOtp db email code now =
        (db, .error (.badRequest "OTP has expired. Please request a new OTP."))) ∧
    (∀ u h, findByEmail db email = some u → u.otpCode = some h →
      u.otpExpires.any (fun e => decide (e < now)) = false →
      bcryptCompare code h = false →
      verifyOtp db email code now =
        (db, .error (.badRequest "Invalid OTP code. Please try again."))) ∧
    (∀ u h, findByEmail db email = some u → u.otpCode = some h →
      u.otpExpires.any (fun e => decide (e < now)) = false →
      bcryptCompare code h = true →
      (verifyOtp db email code now).2 =
        .ok ("Account verified successfully. You can now log in.",
          { sanitize u with isActive := true }) ∧
      ∀ v ∈ (verifyOtp db email code now).1.users, v.id = u.id →
        v.isActive = true ∧ v.otpCode = none ∧ v.otpExpires = none) := by
  refine ⟨?_, ?_, ?_, ?_, ?_⟩
  · intro hfind
    unfold verifyOtp
    rw [hfind]
  · intro u hfind hotp
    unfold verifyOtp
    rw [hfind]
    simp [hotp]
  · intro u h e hfind hotp hexp hlt
    unfold verifyOtp
    rw [hfind]
    simp [hotp, hexp, hlt]
  · intro u h hfind hotp hexp hcmp
    unfold verifyOtp
    rw [hfind]
    simp [hotp, hexp, hcmp]
  · intro u h hfind hotp hexp hcmp
    have hdb : verifyOtp db email code now =
        (updateUser db u.id activateUser,
         .ok ("Account verified successfully. You can now log in.",
           { sanitize u with isActive := true })) := by
      unfold verifyOtp
      rw [hfind]
      simp [hotp, hexp, hcmp]
    refine ⟨by rw [hdb], ?_⟩
    intro v hv hvid
    rw [hdb] at hv
    rcases mem_updateUser hv with ⟨w, _, hvw, hne⟩ | ⟨w, _, hvw, heq⟩
    · exfalso
      rw [hvw] at hvid
      rw [hvid] at hne
      simp at hne
    · rw [hvw]
      exact ⟨rfl, rfl, rfl⟩

/-- C6 witness: the theorem applied to the one-user store whose pending
OTP (hash of "123456") expires at time 100 — verification at time 200
fails with BadRequest even though the code is correct, and verification at
time 50 succeeds and activates the account. -/
theorem C6_witness :
    verifyOtp udbInactive "ann@example.com" "123456" 200 =
      (udbInactive,
       Except.error (Err.badRequest "OTP has expired. Please request a new OTP.")) ∧
    (verifyOtp udbInactive "ann@example.com" "123456" 50).2 =
      Except.ok ("Account verified successfully. You can now log in.",
        { sanitize annInactive with isActive := true }) :=
  ⟨(C6_verify_otp_checks udbInactive "ann@example.com" "123456" 200).2.2.1
      annInactive (bcryptHash "123456") 100 rfl rfl rfl (by decide),
   ((C6_verify_otp_checks udbInactive "ann@example.com" "123456" 50).2.2.2.2
      annInactive (bcryptHash "123456") rfl rfl (by decide) (by decide)).1⟩

end Bosma

namespace Bosma

/-- C8: existence-disclosure asymmetry.  For an email with no account,
`sendOtp` fails with NotFound while `forgotPassword` returns the generic
message and leaves the store untouched; and `forgotPassword` returns that
same generic message when the lookup does find a user (mail transport
succeeding). -/
theorem C8_otp_disclosure (db : UserDB) (email otp : String) (now : Nat) :
    (findByEmail db email = none →
      (∀ mailOk, sendOtp db email otp now mailOk =
        (db, .error (.notFound "User with this email not found"))) ∧
      (∀ mailOk, forgotPassword db email otp now mailOk =
        (db, .ok "If the email exists, an OTP has been sent to your email."))) ∧
    (∀ u, findByEmail db email = some u →
      (forgotPassword db email otp now true).2 =
        .ok "If the email exists, an OTP has been sent to your email.") := by
  constructor
  · intro hfind
    constructor
    · intro mailOk
      unfold sendOtp
      rw [hfind]
    · intro mailOk
      unfold forgotPassword
      rw [hfind]
  · intro u hfind
    unfold forgotPassword
    rw [hfind]
    simp

/-- C8 witness: the theorem applied to the empty store (no account) and to
the one-user store (account present). -/
theorem C8_witness :
    sendOtp udbEmpty "ghost@example.com" "111111" 0 true =
      (udbEmpty, Except.error (Err.notFound "User with this email not found")) ∧
    forgotPassword udbEmpty "ghost@example.com" "111111" 0 true =
      (udbEmpty, Except.ok "If the email exists, an OTP has been sent to your email.") ∧
    (forgotPassword udbInactive "ann@example.com" "111111" 0 true).2 =
      Except.ok "If the email exists, an OTP has been sent to your email." :=
  ⟨((C8_otp_disclosure udbEmpty "ghost@example.com" "111111" 0).1 rfl).1 true,
   ((C8_otp_disclosure udbEmpty "ghost@example.com" "111111" 0).1 rfl).2 true,
   (C8_otp_disclosure udbInactive "ann@example.com" "111111" 0).2 annInactive rfl⟩

/-- C9: `resetPassword` performs no OTP verification of its own: its only
failure is NotFound for an absent email; for every existing user —
whatever the OTP fields hold — it succeeds, stores the new password
(hashed by the store's write path), sets `isActive` and clears the OTP
fields. -/
theorem C9_reset_password_no_otp_check (db : UserDB)
    (email newPassword : String) :
    (findByEmail db email = none →
      resetPassword db email newPassword =
        (db, .error (.notFound "User with this email not found"))) ∧
    (∀ u, findByEmail db email = some u →
      (resetPassword db email newPassword).2 = .ok "Password reset successfully" ∧
      ∀ v ∈ (resetPassword db email newPassword).1.users, v.id = u.id →
        v.isActive = true ∧ v.otpCode = none ∧ v.otpExpires = none ∧
        v.password = bcryptHash newPassword) := by
  constructor
  · intro hfind
    unfold resetPassword
    rw [hfind]
  · intro u hfind
    have hdb : resetPassword db email newPassword =
        (updateUser db u.id (resetPasswordFields newPassword),
         .ok "Password reset successfully") := by
      unfold resetPassword
      rw [hfind]
    refine ⟨by rw [hdb], ?_⟩
    intro v hv hvid
    rw [hdb] at hv
    rcases mem_updateUser hv with ⟨w, _, hvw, hne⟩ | ⟨w, _, hvw, heq⟩
    · exfalso
      rw [hvw] at hvid
      rw [hvid] at hne
      simp at hne
    · rw [hvw]
      exact ⟨rfl, rfl, rfl, rfl⟩

/-- C9 witness: the theorem applied to the one-user store, whose user has
a pending (unexpired at 50, expired at 200 — irrelevant either way) OTP:
the reset succeeds with no OTP input at all. -/
theorem C9_witness :
    (resetPassword udbInactive "ann@example.com" "s3cret").2 =
      Except.ok "Password reset successfully" ∧
    resetPassword udbEmpty "ghost@example.com" "s3cret" =
      (udbEmpty, Except.error (Err.notFound "User with this email not found")) :=
  ⟨((C9_reset_password_no_otp_check udbInactive "ann@example.com" "s3cret").2
      annInactive rfl).1,
   (C9_reset_password_no_otp_check udbEmpty "ghost@example.com" "s3cret").1 rfl⟩

end Bosma

namespace Bosma

/-- Replacing the found cart item by its quantity-updated copy leaves every
row's `(cartId, variantId)` key unchanged (row ids are unique, so only the
found row itself is rewritten). -/
theorem update_preserves_keys (l : List CartItem) (it : CartItem) (q : Int)
    (hmem : it ∈ l) (hids : (l.map CartItem.id).Nodup) :
    ∀ a ∈ l,
      ((if a.id == it.id then { it with quantity := q } else a).cartId = a.cartId ∧
       (if a.id == it.id then { it with quantity := q } else a).variantId = a.variantId) := by
  intro a ha
  by_cases h : (a.id == it.id) = true
  · have haeq : a = it :=
      List.inj_on_of_nodup_map hids ha hmem (by simpa using h)
    subst haeq
    simp [h]
  · simp only [Bool.not_eq_true] at h
    simp [h]

/-- Well-formedness of the cart-item table: the `(cartId, variantId)` dedup
invariant, primary-key uniqueness, and id-sequence freshness. -/
def CartWF (db : ShopDB) : Prop :=
  CartItemsDedup db ∧ (db.cartItems.map CartItem.id).Nodup ∧
    ∀ i ∈ db.cartItems, i.id < db.nextCartItemId

/-- C7: `addItemToCart` keeps at most one cart item per `(cartId,
variantId)`: with an unknown variant it fails with NotFound; with an
existing row it updates that row's quantity to the sum and adds no row;
with a fresh variant it appends exactly one new row; and it preserves the
dedup invariant on well-formed stores. -/
theorem C7_add_item_dedup (db : ShopDB) (userId variantId : Nat)
    (quantity : Int) (dd : Option DesignData) :
    (∀ c, db.carts.find? (fun k => k.userId == userId) = some c →
      db.variants.find? (fun v => v.id == variantId) = none →
      addItemToCart db userId variantId quantity dd =
        (db, .error (.notFound "Product variant not found"))) ∧
    (∀ c vv it, db.carts.find? (fun k => k.userId == userId) = some c →
      db.variants.find? (fun v => v.id == variantId) = some vv →
      db.cartItems.find?
          (fun i => i.cartId == c.id && i.variantId == variantId) = some it →
      (addItemToCart db userId variantId quantity dd).2 =
        .ok { it with quantity := it.quantity + quantity } ∧
      (addItemToCart db userId variantId quantity dd).1.cartItems.length =
        db.cartItems.length) ∧
    (∀ c vv, db.carts.find? (fun k => k.userId == userId) = some c →
      db.variants.find? (fun v => v.id == variantId) = some vv →
      db.cartItems.find?
          (fun i => i.cartId == c.id && i.variantId == variantId) = none →
      ∃ n, (addItemToCart db userId variantId quantity dd).1.cartItems =
          db.cartItems ++ [n] ∧
        (addItemToCart db userId variantId quantity dd).2 = .ok n ∧
        n.cartId = c.id ∧ n.variantId = variantId ∧ n.quantity = quantity) ∧
    (CartWF db → CartItemsDedup (addItemToCart db userId variantId quantity dd).1) := by
  refine ⟨?_, ?_, ?_, ?_⟩
  · intro c hc hv
    unfold addItemToCart
    rw [hc]
    simp [hv]
  · intro c vv it hc hv hit
    unfold addItemToCart
    rw [hc]
    simp [hv, hit]
  · intro c vv hc hv hit
    unfold addItemToCart
    rw [hc]
    simp [hv, hit]
  · intro hwf
    obtain ⟨hdedup, hids, hfresh⟩ := hwf
    unfold addItemToCart
    cases hc : db.carts.find? (fun k => k.userId == userId) with
    | some c =>
        simp only []
        cases hv : db.variants.find? (fun v => v.id == variantId) with
        | none => exact hdedup
        | some vv =>
            cases hit : db.cartItems.find?
                (fun i => i.cartId == c.id && i.variantId == variantId) with
            | some it =>
                simp only [CartItemsDedup]
                rw [List.pairwise_map]
                refine hdedup.imp_of_mem ?_
                intro a b ha hb hR hcontra
                apply hR
                obtain ⟨hac, hav⟩ := update_preserves_keys db.cartItems it
                  (it.quantity + quantity) (List.mem_of_find?_eq_some hit) hids a ha
                obtain ⟨hbc, hbv⟩ := update_preserves_keys db.cartItems it
                  (it.quantity + quantity) (List.mem_of_find?_eq_some hit) hids b hb
                rw [← hac, ← hav, ← hbc, ← hbv]
                exact hcontra
            | none =>
                simp only [CartItemsDedup]
                rw [List.pairwise_append]
                refine ⟨hdedup, List.pairwise_singleton _ _, ?_⟩
                intro a ha b hb hcontra
                have hfail := List.find?_eq_none.mp hit a ha
                apply hfail
                rw [List.mem_singleton.mp hb] at hcontra
                simp only [Bool.and_eq_true, beq_iff_eq]
                exact ⟨hcontra.1, hcontra.2⟩
    | none =>
        simp only []
        cases hv : db.variants.find? (fun v => v.id == variantId) with
        | none => exact hdedup
        | some vv =>
            cases hit : db.cartItems.find?
                (fun i => i.cartId == db.nextCartId && i.variantId == variantId) with
            | some it =>
                simp only [CartItemsDedup]
                rw [List.pairwise_map]
                refine hdedup.imp_of_mem ?_
                intro a b ha hb hR hcontra
                apply hR
                obtain ⟨hac, hav⟩ := update_preserves_keys db.cartItems it
                  (it.quantity + quantity) (List.mem_of_find?_eq_some hit) hids a ha
                obtain ⟨hbc, hbv⟩ := update_preserves_keys db.cartItems it
                  (it.quantity + quantity) (List.mem_of_find?_eq_some hit) hids b hb
                rw [← hac, ← hav, ← hbc, ← hbv]
                exact hcontra
            | none =>
                simp only [CartItemsDedup]
                rw [List.pairwise_append]
                refine ⟨hdedup, List.pairwise_singleton _ _, ?_⟩
                intro a ha b hb hcontra
                have hfail := List.find?_eq_none.mp hit a ha
                apply hfail
                rw [List.mem_singleton.mp hb] at hcontra
                simp only [Bool.and_eq_true, beq_iff_eq]
                exact ⟨hcontra.1, hcontra.2⟩

/-- C7 witness: adding 3 more units of variant 7 to the cart that already
holds it merges into the single row (quantity 5) without adding a row, and
the dedup invariant is preserved. -/
theorem C7_witness :
    (addItemToCart sdbBase 1 7 3 none).2 =
      Except.ok { id := 1, cartId := 1, variantId := 7, quantity := 5
                  frontDesign := none, backDesign := none
                  frontPreviewUrl := none, backPreviewUrl := none } ∧
    (addItemToCart sdbBase 1 7 3 none).1.cartItems.length =
      sdbBase.cartItems.length ∧
    CartItemsDedup (addItemToCart sdbBase 1 7 3 none).1 :=
  ⟨by
    have h := ((C7_add_item_dedup sdbBase 1 7 3 none).2.1
      { id := 1, userId := 1 } { id := 7, price := 5 }
      { id := 1, cartId := 1, variantId := 7, quantity := 2
        frontDesign := none, backDesign := none
        frontPreviewUrl := none, backPreviewUrl := none } rfl rfl rfl).1
    exact h,
   ((C7_add_item_dedup sdbBase 1 7 3 none).2.1
      { id := 1, userId := 1 } { id := 7, price := 5 }
      { id := 1, cartId := 1, variantId := 7, quantity := 2
        frontDesign := none, backDesign := none
        frontPreviewUrl := none, backPreviewUrl := none } rfl rfl rfl).2,
   (C7_add_item_dedup sdbBase 1 7 3 none).2.2.2
     ⟨by unfold CartItemsDedup sdbBase; simp, by decide, by decide⟩⟩

end Bosma


namespace Bosma

/-- The order `convertCartToOrder sdbBase 1 shipOk false` creates. -/
def orderBase : Order :=
  { id := 1, userId := 1, status := OrderStatus.PENDING, paymentStatus := PaymentStatus.UNPAID, totalPrice := 10, customerName := "Ann", customerPhone := "+998901112233", region := "Tashkent", address := "X", items := [{ variantId := 7, quantity := 2, price := 5, frontDesign := none, backDesign := none, frontPreviewUrl := none, backPreviewUrl := none }] }

/-- C2: cart-to-order conversion is atomic in both implementations.  If the
call returns an order, that order (with one nested item per original cart
item) was appended to the order table and the cart's items were all
deleted; if the call returns any error — including a transaction abort
partway — the whole store is exactly as before: no order row and the cart
retains its original items. -/
theorem C2_conversion_atomic (db : ShopDB) (userId : Nat)
    (s : ShippingDetails) (txFails : Bool) :
    (∀ o, (convertCartToOrder db userId s txFails).2 = .ok o →
      (convertCartToOrder db userId s txFails).1.orders = db.orders ++ [o] ∧
      ∀ c, db.carts.find? (fun k => k.userId == userId) = some c →
        o.items.length = (cartItemsOf db c.id).length ∧
        cartItemsOf (convertCartToOrder db userId s txFails).1 c.id = []) ∧
    (∀ e, (convertCartToOrder db userId s txFails).2 = .error e →
      (convertCartToOrder db userId s txFails).1 = db) ∧
    (∀ o, (placeOrderFromCart db userId s txFails).2 = .ok o →
      (placeOrderFromCart db userId s txFails).1.orders = db.orders ++ [o] ∧
      ∀ c, db.carts.find? (fun k => k.userId == userId) = some c →
        o.items.length = (cartItemsOf db c.id).length ∧
        cartItemsOf (placeOrderFromCart db userId s txFails).1 c.id = []) ∧
    (∀ e, (placeOrderFromCart db userId s txFails).2 = .error e →
      (placeOrderFromCart db userId s txFails).1 = db) := by
  refine ⟨?_, ?_, ?_, ?_⟩
  · intro o ho
    unfold convertCartToOrder at ho ⊢
    cases hc : db.carts.find? (fun k => k.userId == userId) with
    | none => rw [hc] at ho; simp at ho
    | some cart =>
        rw [hc] at ho
        cases hemp : (cartItemsOf db cart.id).isEmpty with
        | true => simp [hemp] at ho
        | false =>
            cases htx : txFails with
            | true => simp [hemp, htx] at ho
            | false =>
                simp only [hemp, htx, Bool.false_eq_true, if_false] at ho ⊢
                simp only [Except.ok.injEq] at ho
                subst ho
                refine ⟨rfl, ?_⟩
                intro c hcc
                simp only [Option.some.injEq] at hcc
                subst hcc
                constructor
                · simp [cartItemsOf]
                · unfold cartItemsOf
                  exact filter_not_filter_eq_nil _ _
  · intro e he
    unfold convertCartToOrder at he ⊢
    cases hc : db.carts.find? (fun k => k.userId == userId) with
    | none => rfl
    | some cart =>
        rw [hc] at he
        cases hemp : (cartItemsOf db cart.id).isEmpty with
        | true => simp [hemp]
        | false =>
            cases htx : txFails with
            | true => simp [hemp, htx]
            | false => simp [hemp, htx] at he
  · intro o ho
    unfold placeOrderFromCart at ho ⊢
    cases hc : db.carts.find? (fun k => k.userId == userId) with
    | none => rw [hc] at ho; simp at ho
    | some cart =>
        rw [hc] at ho
        cases hemp : (cartItemsOf db cart.id).isEmpty with
        | true => simp [hemp] at ho
        | false =>
            cases hmiss : (cartItemsOf db cart.id).find?
                (fun i => (variantOf db i).isNone) with
            | some missing => simp [hemp, hmiss] at ho
            | none =>
                by_cases hpos : cartTotal db cart.id ≤ 0
                · simp [hemp, hmiss, hpos] at ho
                · cases htx : txFails with
                  | true => simp [hemp, hmiss, hpos, htx] at ho
                  | false =>
                      simp only [hemp, hmiss, hpos, htx, Bool.false_eq_true,
                        if_false, if_neg] at ho ⊢
                      simp only [Except.ok.injEq] at ho
                      subst ho
                      refine ⟨rfl, ?_⟩
                      intro c hcc
                      simp only [Option.some.injEq] at hcc
                      subst hcc
                      constructor
                      · simp [cartItemsOf]
                      · unfold cartItemsOf
                        exact filter_not_filter_eq_nil _ _
  · intro e he
    unfold placeOrderFromCart at he ⊢
    cases hc : db.carts.find? (fun k => k.userId == userId) with
    | none => rfl
    | some cart =>
        rw [hc] at he
        cases hemp : (cartItemsOf db cart.id).isEmpty with
        | true => simp [hemp]
        | false =>
            cases hmiss : (cartItemsOf db cart.id).find?
                (fun i => (variantOf db i).isNone) with
            | some missing => simp [hemp, hmiss]
            | none =>
                by_cases hpos : cartTotal db cart.id ≤ 0
                · simp [hemp, hmiss, hpos]
                · cases htx : txFails with
                  | true => simp [hemp, hmiss, hpos, htx]
                  | false => simp [hemp, hmiss, hpos, htx] at he

/-- C2 witness: on the concrete one-item cart, a successful conversion
appends the order and empties the cart, and an aborted transaction leaves
the store untouched. -/
theorem C2_witness :
    (convertCartToOrder sdbBase 1 shipOk false).1.orders =
      sdbBase.orders ++ [orderBase] ∧
    (convertCartToOrder sdbBase 1 shipOk true).1 = sdbBase ∧
    (placeOrderFromCart sdbBase 1 shipOk true).1 = sdbBase :=
  ⟨((C2_conversion_atomic sdbBase 1 shipOk false).1 orderBase rfl).1,
   (C2_conversion_atomic sdbBase 1 shipOk true).2.1
     (Err.internal "Transaction aborted") rfl,
   (C2_conversion_atomic sdbBase 1 shipOk true).2.2.2
     (Err.internal "Transaction aborted") rfl⟩

end Bosma

namespace Bosma

/-- `v || undefined` is the identity on payloads that are not the falsy
empty string. -/
theorem jsOrUndef_eq_self {v : Option String} (h : v ≠ some "") :
    jsOrUndef v = v := by
  cases v with
  | none => rfl
  | some str =>
      have hstr : (str == "") = false := by
        apply beq_eq_false_iff_ne.mpr
        intro he
        exact h (by rw [he])
      simp [jsOrUndef, hstr]

/-- C3 (amended): for a user whose cart is non-empty, **whose items all
still have an existing variant and whose total is positive**, both
`convertCartToOrder` and `placeOrderFromCart` (absent a transaction abort)
succeed with `totalPrice = Σ (variant.price × quantity)` read fresh from
the variants, and the cart has zero items immediately after; for an absent
or empty cart both fail with BadRequest. -/
theorem C3_conversion_total (db : ShopDB) (userId : Nat)
    (s : ShippingDetails) :
    (∀ c, db.carts.find? (fun k => k.userId == userId) = some c →
      (cartItemsOf db c.id).isEmpty = false →
      (∀ i ∈ cartItemsOf db c.id, (variantOf db i).isSome = true) →
      0 < cartTotal db c.id →
      (∃ o, (convertCartToOrder db userId s false).2 = .ok o ∧
        o.totalPrice = cartTotal db c.id ∧
        cartItemsOf (convertCartToOrder db userId s false).1 c.id = []) ∧
      (∃ o, (placeOrderFromCart db userId s false).2 = .ok o ∧
        o.totalPrice = cartTotal db c.id ∧
        cartItemsOf (placeOrderFromCart db userId s false).1 c.id = [])) ∧
    (db.carts.find? (fun k => k.userId == userId) = none → ∀ tf,
      convertCartToOrder db userId s tf =
        (db, .error (.badRequest "Cart is empty")) ∧
      placeOrderFromCart db userId s tf =
        (db, .error (.badRequest "Cart is empty"))) ∧
    (∀ c, db.carts.find? (fun k => k.userId == userId) = some c →
      (cartItemsOf db c.id).isEmpty = true → ∀ tf,
      convertCartToOrder db userId s tf =
        (db, .error (.badRequest "Cart is empty")) ∧
      placeOrderFromCart db userId s tf =
        (db, .error (.badRequest "Cart is empty"))) := by
  refine ⟨?_, ?_, ?_⟩
  · intro c hc hne hv hpos
    constructor
    · unfold convertCartToOrder
      rw [hc]
      simp only [hne, Bool.false_eq_true, if_false]
      refine ⟨_, rfl, rfl, ?_⟩
      unfold cartItemsOf
      exact filter_not_filter_eq_nil _ _
    · unfold placeOrderFromCart
      rw [hc]
      have hmiss : (cartItemsOf db c.id).find?
          (fun i => (variantOf db i).isNone) = none := by
        apply List.find?_eq_none.mpr
        intro x hx
        simp [Option.isNone_iff_eq_none]
        exact Option.isSome_iff_ne_none.mp (hv x hx)
      have hgt : ¬ (cartTotal db c.id ≤ 0) := not_le.mpr hpos
      simp only [hne, hmiss, Bool.false_eq_true, if_false, if_neg hgt]
      refine ⟨_, rfl, rfl, ?_⟩
      unfold cartItemsOf
      exact filter_not_filter_eq_nil _ _
  · intro hc tf
    constructor
    · unfold convertCartToOrder
      rw [hc]
    · unfold placeOrderFromCart
      rw [hc]
  · intro c hc hemp tf
    constructor
    · unfold convertCartToOrder
      rw [hc]
      simp [hemp]
    · unfold placeOrderFromCart
      rw [hc]
      simp [hemp]

/-- C3 counterexample: user 1's cart is non-empty (one item of variant 7,
which exists with price 0), yet `placeOrderFromCart` does not succeed — it
fails with BadRequest on its total-price guard. -/
theorem C3_counterexample :
    (cartItemsOf sdbZeroPrice 1).isEmpty = false ∧
    (∀ i ∈ cartItemsOf sdbZeroPrice 1, (variantOf sdbZeroPrice i).isSome = true) ∧
    (placeOrderFromCart sdbZeroPrice 1 shipOk false).2 =
      Except.error (Err.badRequest "Total price must be greater than zero") :=
  ⟨rfl, by decide, rfl⟩

/-- C3 witness: the amended theorem applied to the priced cart: both
implementations succeed with total 10 and empty the cart, and on a store
with no cart for user 2 both report BadRequest. -/
theorem C3_witness :
    ((∃ o, (convertCartToOrder sdbBase 1 shipOk false).2 = .ok o ∧
        o.totalPrice = cartTotal sdbBase 1 ∧
        cartItemsOf (convertCartToOrder sdbBase 1 shipOk false).1 1 = []) ∧
     (∃ o, (placeOrderFromCart sdbBase 1 shipOk false).2 = .ok o ∧
        o.totalPrice = cartTotal sdbBase 1 ∧
        cartItemsOf (placeOrderFromCart sdbBase 1 shipOk false).1 1 = [])) ∧
    convertCartToOrder sdbBase 2 shipOk false =
      (sdbBase, .error (.badRequest "Cart is empty")) :=
  ⟨(C3_conversion_total sdbBase 1 shipOk).1 { id := 1, userId := 1 }
      rfl rfl (by decide) (by decide),
   ((C3_conversion_total sdbBase 2 shipOk).2.1 rfl false).1⟩

end Bosma

namespace Bosma

/-- C10 (amended): the two cart-to-order implementations diverge on edge
carts — for a non-empty cart containing an item whose variant no longer
exists, or whose computed total is ≤ 0, `placeOrderFromCart` fails with
BadRequest while `convertCartToOrder` succeeds (pricing a missing variant
at 0); on carts where every variant exists, the total is positive, the
design payloads are not the falsy empty string, and the shipping region
and address are non-empty (truthy), both calls return identical results. -/
theorem C10_implementations_divergence (db : ShopDB) (userId : Nat)
    (s : ShippingDetails) :
    (∀ c m, db.carts.find? (fun k => k.userId == userId) = some c →
      (cartItemsOf db c.id).isEmpty = false →
      m ∈ cartItemsOf db c.id → (variantOf db m).isNone = true →
      (∃ msg, (placeOrderFromCart db userId s false).2 =
        .error (.badRequest msg)) ∧
      (∃ o, (convertCartToOrder db userId s false).2 = .ok o)) ∧
    (∀ c, db.carts.find? (fun k => k.userId == userId) = some c →
      (cartItemsOf db c.id).isEmpty = false →
      (∀ i ∈ cartItemsOf db c.id, (variantOf db i).isSome = true) →
      cartTotal db c.id ≤ 0 →
      (placeOrderFromCart db userId s false).2 =
        .error (.badRequest "Total price must be greater than zero") ∧
      (∃ o, (convertCartToOrder db userId s false).2 = .ok o)) ∧
    (∀ c, db.carts.find? (fun k => k.userId == userId) = some c →
      (∀ i ∈ cartItemsOf db c.id, (variantOf db i).isSome = true) →
      0 < cartTotal db c.id →
      s.region ≠ "" → s.address ≠ "" →
      (∀ i ∈ cartItemsOf db c.id,
        i.frontDesign ≠ some "" ∧ i.backDesign ≠ some "") →
      convertCartToOrder db userId s false =
        placeOrderFromCart db userId s false) := by
  refine ⟨?_, ?_, ?_⟩
  · intro c m hc hne hm hmiss
    constructor
    · unfold placeOrderFromCart
      rw [hc]
      have hfound : ((cartItemsOf db c.id).find?
          (fun i => (variantOf db i).isNone)).isSome = true := by
        rw [List.find?_isSome]
        exact ⟨m, hm, hmiss⟩
      cases hfind : (cartItemsOf db c.id).find?
          (fun i => (variantOf db i).isNone) with
      | none => rw [hfind] at hfound; simp at hfound
      | some missing =>
          exact ⟨s!"Variant with ID {missing.variantId} not found",
            by simp [hne, hfind]⟩
    · unfold convertCartToOrder
      rw [hc]
      simp only [hne, Bool.false_eq_true, if_false]
      exact ⟨_, rfl⟩
  · intro c hc hne hv hle
    constructor
    · unfold placeOrderFromCart
      rw [hc]
      have hmiss : (cartItemsOf db c.id).find?
          (fun i => (variantOf db i).isNone) = none := by
        apply List.find?_eq_none.mpr
        intro x hx
        simp [Option.isNone_iff_eq_none]
        exact Option.isSome_iff_ne_none.mp (hv x hx)
      simp [hne, hmiss, hle]
    · unfold convertCartToOrder
      rw [hc]
      simp only [hne, Bool.false_eq_true, if_false]
      exact ⟨_, rfl⟩
  · intro c hc hv hpos hreg haddr hdes
    unfold convertCartToOrder placeOrderFromCart
    rw [hc]
    cases hemp : (cartItemsOf db c.id).isEmpty with
    | true => simp [hemp]
    | false =>
        have hmiss : (cartItemsOf db c.id).find?
            (fun i => (variantOf db i).isNone) = none := by
          apply List.find?_eq_none.mpr
          intro x hx
          simp [Option.isNone_iff_eq_none]
          exact Option.isSome_iff_ne_none.mp (hv x hx)
        have hgt : ¬ (cartTotal db c.id ≤ 0) := not_le.mpr hpos
        have hr : (s.region == "") = false := beq_eq_false_iff_ne.mpr hreg
        have ha : (s.address == "") = false := beq_eq_false_iff_ne.mpr haddr
        have hmap : (cartItemsOf db c.id).map
            (fun i => ({ variantId := i.variantId, quantity := i.quantity, price := ((variantOf db i).map Variant.price).getD 0, frontDesign := jsOrUndef i.frontDesign, backDesign := jsOrUndef i.backDesign, frontPreviewUrl := i.frontPreviewUrl, backPreviewUrl := i.backPreviewUrl } : OrderItem)) =
            (cartItemsOf db c.id).map
            (fun i => ({ variantId := i.variantId, quantity := i.quantity, price := ((variantOf db i).map Variant.price).getD 0, frontDesign := i.frontDesign, backDesign := i.backDesign, frontPreviewUrl := i.frontPreviewUrl, backPreviewUrl := i.backPreviewUrl } : OrderItem)) := by
          apply List.map_congr_left
          intro i hi
          obtain ⟨hf, hb⟩ := hdes i hi
          rw [jsOrUndef_eq_self hf, jsOrUndef_eq_self hb]
        simp only [hemp, hmiss, Bool.false_eq_true, if_false, if_neg hgt,
          jsOrStr, hr, ha, hmap]

/-- C10 counterexample: on the same priced cart with shipping details
whose region is the empty (falsy) string, both calls succeed but create
different orders (`region` is stored as `""` by `convertCartToOrder` and
as `"Unknown"` by `placeOrderFromCart`), so the two implementations do not
create the same order even though every variant exists and the total is
positive. -/
theorem C10_counterexample :
    0 < cartTotal sdbBase 1 ∧
    (convertCartToOrder sdbBase 1 shipEmptyRegion false).2.toOption.isSome = true ∧
    (placeOrderFromCart sdbBase 1 shipEmptyRegion false).2.toOption.isSome = true ∧
    (convertCartToOrder sdbBase 1 shipEmptyRegion false).1.orders ≠
      (placeOrderFromCart sdbBase 1 shipEmptyRegion false).1.orders :=
  ⟨by decide, rfl, rfl, by decide⟩

/-- C10 witness: the amended theorem applied to the three concrete stores:
missing variant (place rejects, convert succeeds), zero price (place
rejects, convert succeeds), and the well-formed cart with truthy shipping
fields (identical results). -/
theorem C10_witness :
    ((∃ msg, (placeOrderFromCart sdbNoVariant 1 shipOk false).2 =
        .error (.badRequest msg)) ∧
     (∃ o, (convertCartToOrder sdbNoVariant 1 shipOk false).2 = .ok o)) ∧
    ((placeOrderFromCart sdbZeroPrice 1 shipOk false).2 =
        .error (.badRequest "Total price must be greater than zero") ∧
     (∃ o, (convertCartToOrder sdbZeroPrice 1 shipOk false).2 = .ok o)) ∧
    convertCartToOrder sdbBase 1 shipOk false =
      placeOrderFromCart sdbBase 1 shipOk false :=
  ⟨(C10_implementations_divergence sdbNoVariant 1 shipOk).1
      { id := 1, userId := 1 }
      { id := 1, cartId := 1, variantId := 7, quantity := 2
        frontDesign := none, backDesign := none
        frontPreviewUrl := none, backPreviewUrl := none }
      rfl rfl (by decide) rfl,
   (C10_implementations_divergence sdbZeroPrice 1 shipOk).2.1
      { id := 1, userId := 1 } rfl rfl (by decide) (by decide),
   (C10_implementations_divergence sdbBase 1 shipOk).2.2
      { id := 1, userId := 1 } rfl (by decide) (by decide)
      (by decide) (by decide) (by decide)⟩

end Bosma
